import Mathlib

/-!
Verification of the real-time turn-taking orchestrator in
`backend/agent/basic_agent.py` (voice-agent repository).

The embedding models, faithfully to the Python source:
  * the per-event body of `handle_transcription` (lines 157-216) as a pure
    transition function on the closure state
    (`last_transcript`, `last_transcript_time`, `is_processing`,
    `is_speaking`, `chat_history`) that also returns the list of observable
    effects (transcript emissions, the 0.5 s pre-think sleep, the Reasoner
    call, the speak call);
  * `speak_text` (lines 218-330) as a function of the room view and of the
    synthesis-stream outcome;
  * `cleanup_resources` (lines 340-407) with its one-shot `cleanup_done`
    flag and swallowed per-step failures;
  * the `wait_for_audio_track` polling loop (lines 89-103);
  * the interleaving of the `handle_transcription` task, the
    `process_announcements` task (lines 144-155) and `speak_text` as a
    small-step relation on configurations, used for the concurrency claims.

Times are rationals (seconds), as the source compares `time.time()` floats
with `< 2.0`; the Reasoner is an oracle `String -> List ChatMsg -> Except`.
-/

namespace VoiceAgent

/-- Role of a chat-history entry (`"role": "user" | "assistant"`). -/
inductive Role where
  | user
  | assistant
deriving DecidableEq, Repr

/-- One entry of `chat_history`: `{"role": ..., "content": ...}`. -/
structure ChatMsg where
  role : Role
  content : String
deriving DecidableEq, Repr

/-- The mutable closure state read and written by `handle_transcription`
(lines 139-142 and 157-216): `last_transcript`, `last_transcript_time`,
`is_processing`, `is_speaking`, plus `chat_history` (line 57). -/
structure AgentState where
  lastTranscript : Option String
  lastTranscriptTime : ℚ
  isProcessing : Bool
  isSpeaking : Bool
  chatHistory : List ChatMsg
deriving DecidableEq, Repr

/-- Observable effects of processing one recognizer event. -/
inductive Effect where
  | sendTranscript (text : String) (is_user : Bool)
  | sleep (seconds : ℚ)
  | reasonerCall (utterance : String) (history : List ChatMsg)
  | speakText (text : String)
deriving DecidableEq, Repr

/-- A recognizer event as consumed by `handle_transcription`:
`event.type == FINAL_TRANSCRIPT` and the ranked text alternatives. -/
structure SpeechEvent where
  isFinal : Bool
  alternatives : List String
deriving DecidableEq, Repr

/-- Oracle for `get_agent_response`: given the utterance and the history
excluding it, returns the reply text or raises (`Except.error`). -/
abbrev Reasoner : Type := String → List ChatMsg → Except String String

/-- The blank test of line 166, `not user_transcript.strip()`: true exactly
when every character of the text is whitespace (stripping all whitespace
leaves the empty, falsy string). -/
def isBlank (t : String) : Bool := t.toList.all Char.isWhitespace

/-- The fixed fallback apology of line 208. -/
def errorMsg : String := "I\x27m sorry, I encountered an error. Please try again."

/-- The fixed greeting of line 332. -/
def greeting : String :=
  "Hey! I\x27m Paradise, your travel planning buddy. What can I help you with today?"

/-- The dedup test of line 171:
`user_transcript == last_transcript and (current_time - last_transcript_time) < 2.0`.
A `None` previous transcript never compares equal. -/
def dedupHit (s : AgentState) (t : String) (now : ℚ) : Bool :=
  match s.lastTranscript with
  | some lt => t == lt && decide (now - s.lastTranscriptTime < 2)
  | none => false

/-- One iteration of the `handle_transcription` loop body (lines 162-211)
for a `SpeechEvent`, as a pure transition returning the new state and the
emitted effects.  Guard order is that of the source: nonempty alternatives
(line 164), nonblank text (line 166), dedup window (line 171), busy gate
(line 174), finality (line 177); then the turn body with its
`try/except/finally` around the Reasoner call. -/
def handle_event (reasoner : Reasoner) (now : ℚ) (s : AgentState)
    (e : SpeechEvent) : AgentState × List Effect :=
  match e.alternatives with
  | [] => (s, [])
  | t :: _ =>
    if isBlank t then (s, [])
    else if dedupHit s t now then (s, [])
    else if s.isProcessing || s.isSpeaking then (s, [])
    else if !e.isFinal then (s, [])
    else
      let s1 : AgentState :=
        { s with isProcessing := true, lastTranscript := some t,
                 lastTranscriptTime := now }
      let hist := s1.chatHistory ++ [⟨Role.user, t⟩]
      match reasoner t s.chatHistory with
      | Except.ok r =>
          ({ s1 with isProcessing := false,
                     chatHistory := hist ++ [⟨Role.assistant, r⟩] },
           [Effect.sendTranscript t true, Effect.sleep (1/2),
            Effect.reasonerCall t s.chatHistory,
            Effect.sendTranscript r false, Effect.speakText r])
      | Except.error _ =>
          ({ s1 with isProcessing := false, chatHistory := hist },
           [Effect.sendTranscript t true, Effect.sleep (1/2),
            Effect.reasonerCall t s.chatHistory,
            Effect.sendTranscript errorMsg false])

/-- The state at line 139-142 with the initial empty `chat_history` of
line 57: nothing accepted yet, both flags down. -/
def initialAgentState : AgentState :=
  { lastTranscript := none, lastTranscriptTime := 0,
    isProcessing := false, isSpeaking := false, chatHistory := [] }

/-- Effects of the session-start greeting (lines 332-334): the greeting is
sent to the transcript sink as a non-user message and then spoken; nothing
is appended to `chat_history`. -/
def sessionStart : AgentState × List Effect :=
  (initialAgentState,
   [Effect.sendTranscript greeting false, Effect.speakText greeting])

/-! ### Model of `speak_text` (lines 218-330) -/

/-- A published local track (`publication.track`, with its `name`). -/
structure Track where
  name : String
deriving DecidableEq, Repr

/-- A local track publication; `track` is `None` when no track object is
attached to the publication. -/
structure Publication where
  track : Option Track
deriving DecidableEq, Repr

/-- What `speak_text` reads from the room before streaming: the connection
state as an integer (`int(room.connection_state)`, `0` = disconnected,
lines 224-226) and the local participant track publications
(lines 239-242). -/
structure RoomView where
  connectionState : ℤ
  publications : List Publication
deriving DecidableEq, Repr

/-- The check of lines 238-242: some publication has a track named
`"agent-voice"`. -/
def audioTrackPublished (room : RoomView) : Bool :=
  room.publications.any fun p =>
    match p.track with
    | some t => t.name == "agent-voice"
    | none => false

/-- Outcome of one `capture_frame` await (lines 266-300): success, an
RTC-classified error (caught, logged, `break`), any other exception
(caught, logged, `break`), or task cancellation (not an `Exception`,
propagates after the `finally`). -/
inductive CaptureOutcome where
  | ok
  | rtcError
  | otherError
  | cancelledCap
deriving DecidableEq, Repr

/-- Duck-typed shape of one synthesizer output (lines 267-273): it may have
a truthy `frame`, or a truthy `audio` that itself may or may not carry a
`frame`, or neither. -/
inductive TTSChunk where
  | withFrame
  | withAudioFrame
  | withAudioNoFrame
  | empty
deriving DecidableEq, Repr

/-- One step of the `async for output in tts_engine.synthesize(text)` loop:
either the stream yields a chunk (together with the connection state read
at the top of the iteration and the capture outcome for it), or the stream
itself raises (quota/429 or other, both caught at line 301), or the await
is cancelled (propagates). -/
inductive SynthItem where
  | chunk (c : TTSChunk) (connState : ℤ) (capture : CaptureOutcome)
  | errQuota
  | errOther
  | cancelled
deriving DecidableEq, Repr

/-- Result of a `speak_text` call: the final value of `is_speaking`, the
final `frame_count`, whether `tts_engine.synthesize` was entered, and
whether an exception escapes the call (only cancellation can). -/
structure SpeakResult where
  isSpeaking : Bool
  framesSent : ℕ
  synthCalled : Bool
  raised : Bool
deriving DecidableEq, Repr

/-- The streaming loop of lines 253-300, threading `frame_count`.  Returns
the final count and whether cancellation escapes.  Per the source,
`frame_count` is incremented before the capture await, a mid-iteration
disconnect `break`s, any caught capture error `break`s, and a stream
exception leaves the loop (handled at line 301). -/
def speakLoop : List SynthItem → ℕ → ℕ × Bool
  | [], n => (n, false)
  | SynthItem.chunk c cs cap :: rest, n =>
    if cs = 0 then (n, false)
    else
      match c with
      | TTSChunk.withFrame =>
          (match cap with
           | CaptureOutcome.ok => speakLoop rest (n + 1)
           | CaptureOutcome.rtcError => (n + 1, false)
           | CaptureOutcome.otherError => (n + 1, false)
           | CaptureOutcome.cancelledCap => (n + 1, true))
      | TTSChunk.withAudioFrame =>
          (match cap with
           | CaptureOutcome.ok => speakLoop rest (n + 1)
           | CaptureOutcome.rtcError => (n + 1, false)
           | CaptureOutcome.otherError => (n + 1, false)
           | CaptureOutcome.cancelledCap => (n + 1, true))
      | TTSChunk.withAudioNoFrame => speakLoop rest (n + 1)
      | TTSChunk.empty => speakLoop rest n
  | SynthItem.errQuota :: _, n => (n, false)
  | SynthItem.errOther :: _, n => (n, false)
  | SynthItem.cancelled :: _, n => (n, true)

/-- `speak_text` (lines 218-330): sets `is_speaking` on entry, no-ops when
the room is disconnected (lines 224-236) or the `"agent-voice"` track is
not published (lines 238-250), otherwise runs the synthesis loop; the
`finally` of line 321 clears `is_speaking` on every exit path. -/
def speak_text (room : RoomView) (stream : List SynthItem) : SpeakResult :=
  if room.connectionState = 0 then
    { isSpeaking := false, framesSent := 0, synthCalled := false, raised := false }
  else if !audioTrackPublished room then
    { isSpeaking := false, framesSent := 0, synthCalled := false, raised := false }
  else
    let r := speakLoop stream 0
    { isSpeaking := false, framesSent := r.1, synthCalled := true, raised := r.2 }

/-! ### Model of `cleanup_resources` (lines 336-407) -/

/-- Outcome of `asyncio.wait_for(stt_engine.aclose(), timeout=5.0)`
(lines 357-362): success, timeout (warned), or any other exception
(warned). -/
inductive CloseOutcome where
  | ok
  | timedOut
  | raised
deriving DecidableEq, Repr

/-- Duck-typed view of the STT engine as probed by cleanup (lines 350-364):
presence of `end_input` / `aclose`, whether `end_input` raises, and the
`aclose` outcome. -/
structure STTEngineR where
  hasEndInput : Bool
  endInputRaises : Bool
  hasAclose : Bool
  closeOutcome : CloseOutcome
deriving DecidableEq, Repr

/-- Duck-typed view of the outbound audio track as probed by cleanup
(lines 374-385): presence of `stop` and whether it raises. -/
structure AudioTrackR where
  hasStop : Bool
  stopRaises : Bool
deriving DecidableEq, Repr

/-- State touched by `cleanup_resources`: the one-shot `cleanup_done` flag
(line 336) and the components, each optional because startup may have
failed before creating it. -/
structure CleanupState where
  cleanupDone : Bool
  sttEngine : Option STTEngineR
  ttsEngine : Option Unit
  agentAudioTrack : Option AudioTrackR
  agentAudioSource : Option Unit
  announcementQueue : Option (List String)
deriving DecidableEq, Repr

/-- Observable effects of one cleanup invocation (log lines and component
operations; swallowed failures appear as warning effects, never as raised
exceptions). -/
inductive CleanupEffect where
  | logStart
  | sttEndInput
  | sttClosed
  | sttCloseTimedOut
  | sttCloseFailed
  | trackStopped
  | trackStopFailed
  | queueCleared
  | logDone
deriving DecidableEq, Repr

/-- The STT block of lines 350-364: `end_input` if present (its exception
is caught and warned, skipping `aclose`), then `aclose` if present with the
5 s timeout; the `closed successfully` log fires only without exception. -/
def sttCleanup (eng : STTEngineR) : List CleanupEffect :=
  if eng.hasEndInput && eng.endInputRaises then [CleanupEffect.sttCloseFailed]
  else
    (if eng.hasEndInput then [CleanupEffect.sttEndInput] else []) ++
    (if eng.hasAclose then
       match eng.closeOutcome with
       | CloseOutcome.ok => [CleanupEffect.sttClosed]
       | CloseOutcome.timedOut => [CleanupEffect.sttCloseTimedOut]
       | CloseOutcome.raised => [CleanupEffect.sttCloseFailed]
     else [CleanupEffect.sttClosed])

/-- The track block of lines 374-385: `stop()` if present, its exception
caught and warned. -/
def trackCleanup (tr : AudioTrackR) : List CleanupEffect :=
  if tr.hasStop then
    (if tr.stopRaises then [CleanupEffect.trackStopFailed]
     else [CleanupEffect.trackStopped])
  else []

/-- `cleanup_resources` (lines 340-407): returns immediately when
`cleanup_done` is already set, otherwise sets it, runs every component
block with all failures swallowed, and drains the announcement queue.
Total by construction: no path raises. -/
def cleanup_resources (s : CleanupState) : CleanupState × List CleanupEffect :=
  if s.cleanupDone then (s, [])
  else
    let e1 := match s.sttEngine with
      | some eng => sttCleanup eng
      | none => []
    let e2 := match s.agentAudioTrack with
      | some tr => trackCleanup tr
      | none => []
    let e3 := match s.announcementQueue with
      | some _ => [CleanupEffect.queueCleared]
      | none => []
    ({ s with cleanupDone := true,
              announcementQueue := s.announcementQueue.map fun _ => [] },
     CleanupEffect.logStart :: (e1 ++ e2 ++ e3) ++ [CleanupEffect.logDone])

/-- `n` successive invocations of `cleanup_resources`, accumulating the
observable effects in order. -/
def cleanupN : ℕ → CleanupState → CleanupState × List CleanupEffect
  | 0, s => (s, [])
  | n + 1, s =>
    let r := cleanup_resources s
    let r' := cleanupN n r.1
    (r'.1, r.2 ++ r'.2)

/-! ### Model of the `wait_for_audio_track` poll (lines 88-103) -/

/-- The `while not user_audio_track and attempts < max_attempts` loop of
lines 93-99: each iteration sleeps 100 ms, increments `attempts`, and
rescans the publications; `avail k` says whether the scan after the k-th
sleep finds an audio track with a payload.  Returns the final `attempts`
value (= number of sleeps performed) and whether a track was found. -/
def wait_poll (avail : ℕ → Bool) (maxAttempts : ℕ) (attempts : ℕ) :
    ℕ × Bool :=
  if attempts < maxAttempts then
    let a := attempts + 1
    if avail a then (a, true) else wait_poll avail maxAttempts a
  else (attempts, false)
termination_by maxAttempts - attempts
decreasing_by omega

/-- `wait_for_audio_track` plus the check of lines 102-103: poll with
`max_attempts = 100`, and raise `RuntimeError("No user audio track found")`
(the NoAudioTrackError of the spec) when the cap is exhausted. -/
def wait_for_audio_track (avail : ℕ → Bool) : Except String ℕ :=
  let r := wait_poll avail 100 0
  if r.2 then Except.ok r.1 else Except.error "No user audio track found"

/-! ### Interleaving model of the two speaking tasks

The `handle_transcription` task and the `process_announcements` task run
concurrently (created at lines 453-455) and both call `speak_text`.  Steps
are the transitions between the await points of the source; the shared
variables are the closure flags `is_processing` / `is_speaking`, the
announcement queue length, and one writing flag per task marking that its
`speak_text` call is streaming frames into `agent_audio_source`. -/

/-- Control location of the `handle_transcription` task inside one turn:
`h0` waiting for an event, `h1` turn started and awaiting the Reasoner
(lines 180-197), `h2` Reasoner returned (lines 199-201), `h3` inside
`speak_text` streaming the reply (line 203), `h4` speak returned, before
the `finally` (lines 210-211). -/
inductive HLoc where
  | h0
  | h1
  | h2
  | h3
  | h4
deriving DecidableEq, Repr

/-- Control location of the `process_announcements` task: `a0` awaiting the
queue (line 149), `a1` dequeued and sending the transcript (line 150), `a2`
inside `speak_text` streaming the announcement (line 151). -/
inductive ALoc where
  | a0
  | a1
  | a2
deriving DecidableEq, Repr

/-- A configuration of the interleaved system. -/
structure Config where
  hloc : HLoc
  aloc : ALoc
  isProcessing : Bool
  isSpeaking : Bool
  handleWriting : Bool
  annWriting : Bool
  queue : ℕ
deriving DecidableEq, Repr

/-- The initial configuration: both tasks at their waiting points, flags
down, queue empty. -/
def initConfig : Config :=
  { hloc := HLoc.h0, aloc := ALoc.a0, isProcessing := false,
    isSpeaking := false, handleWriting := false, annWriting := false,
    queue := 0 }

/-- Small-step transitions, each faithful to one segment of the source
between await points:
  * `startTurn`: the gate of line 174 admits a final transcript only when
    both flags are down, then line 180 raises `is_processing`;
  * `enqueueAnn`: the Reasoner invokes `announce_tool_usage` (line 52)
    during the awaited call of lines 191-197;
  * `reasonerDone`: the Reasoner call returns;
  * `handleEnterSpeak` / `annEnterSpeak`: `speak_text` is entered
    (lines 203 and 151) — it raises `is_speaking` unconditionally at
    line 221, with no check of the flag, and begins writing frames;
  * `handleFinishSpeak` / `annFinishSpeak`: the `finally` of line 321
    clears `is_speaking` unconditionally;
  * `finishTurn`: the `finally` of lines 210-211 clears `is_processing`;
  * `annDequeue`: line 149 dequeues when the queue is nonempty. -/
inductive Step : Config → Config → Prop where
  | startTurn (c : Config) (h : c.hloc = HLoc.h0)
      (hp : c.isProcessing = false) (hs : c.isSpeaking = false) :
      Step c { c with hloc := HLoc.h1, isProcessing := true }
  | enqueueAnn (c : Config) (h : c.hloc = HLoc.h1) :
      Step c { c with queue := c.queue + 1 }
  | reasonerDone (c : Config) (h : c.hloc = HLoc.h1) :
      Step c { c with hloc := HLoc.h2 }
  | handleEnterSpeak (c : Config) (h : c.hloc = HLoc.h2) :
      Step c { c with hloc := HLoc.h3, isSpeaking := true,
                      handleWriting := true }
  | handleFinishSpeak (c : Config) (h : c.hloc = HLoc.h3) :
      Step c { c with hloc := HLoc.h4, isSpeaking := false,
                      handleWriting := false }
  | finishTurn (c : Config) (h : c.hloc = HLoc.h4) :
      Step c { c with hloc := HLoc.h0, isProcessing := false }
  | annDequeue (c : Config) (h : c.aloc = ALoc.a0) (hq : 0 < c.queue) :
      Step c { c with aloc := ALoc.a1, queue := c.queue - 1 }
  | annEnterSpeak (c : Config) (h : c.aloc = ALoc.a1) :
      Step c { c with aloc := ALoc.a2, isSpeaking := true,
                      annWriting := true }
  | annFinishSpeak (c : Config) (h : c.aloc = ALoc.a2) :
      Step c { c with aloc := ALoc.a0, isSpeaking := false,
                      annWriting := false }

/-- Configurations reachable from the initial one. -/
inductive Reachable : Config → Prop where
  | init : Reachable initConfig
  | step {c c' : Config} : Reachable c → Step c c' → Reachable c'

/-- A reachable configuration in which the turn reply and an announcement
are being synthesized at the same time: the handle task is at line 203
inside `speak_text` and the announcement task is at line 151 inside its own
`speak_text`. -/
def overlapConfig : Config :=
  { hloc := HLoc.h3, aloc := ALoc.a2, isProcessing := true,
    isSpeaking := true, handleWriting := true, annWriting := true,
    queue := 0 }

/-! ### Concrete oracles used for instantiations -/

/-- Reasoner oracle that always succeeds with a fixed reply. -/
def okReasoner : Reasoner := fun _ _ => Except.ok "Hi there!"

/-- Reasoner oracle that raises on one specific utterance and succeeds on
every other. -/
def failReasoner : Reasoner := fun u _ =>
  if u = "Book a flight" then Except.error "boom" else Except.ok "Hi"

/-! ## Theorems for the claims -/

/-- C2: a final transcript equal to the previously accepted one and
arriving strictly within 2.0 s of it is ignored — no transcript emission,
no history append, no Reasoner call, state unchanged (line 171). -/
theorem dedup_window_ignores_repeat (reasoner : Reasoner) (now : ℚ)
    (s : AgentState) (t : String) (rest : List String) (e : SpeechEvent)
    (halt : e.alternatives = t :: rest) (hfinal : e.isFinal = true)
    (hlast : s.lastTranscript = some t)
    (htime : now - s.lastTranscriptTime < 2) :
    handle_event reasoner now s e = (s, []) := by
  unfold handle_event
  rw [halt]
  by_cases htrim : isBlank t = true
  · simp [htrim]
  · have hd : dedupHit s t now = true := by
      unfold dedupHit
      rw [hlast]
      simp [htime]
    simp [htrim, hd]

/-- Witness for C2 at a concrete repeat arriving 1 s after the previous
acceptance. -/
theorem dedup_window_ignores_repeat_witness :
    handle_event okReasoner 1
      { lastTranscript := some "Hello", lastTranscriptTime := 0,
        isProcessing := false, isSpeaking := false, chatHistory := [] }
      { isFinal := true, alternatives := ["Hello"] } =
      ({ lastTranscript := some "Hello", lastTranscriptTime := 0,
         isProcessing := false, isSpeaking := false, chatHistory := [] },
       []) :=
  dedup_window_ignores_repeat okReasoner 1 _ "Hello" [] _ rfl rfl rfl
    (by norm_num)

/-- C4: any recognizer event arriving while `is_processing` or
`is_speaking` is set is dropped with no effect and no state change
(lines 174-175). -/
theorem busy_gate_drops_event (reasoner : Reasoner) (now : ℚ)
    (s : AgentState) (e : SpeechEvent)
    (hbusy : s.isProcessing = true ∨ s.isSpeaking = true) :
    handle_event reasoner now s e = (s, []) := by
  unfold handle_event
  cases halt : e.alternatives with
  | nil => rfl
  | cons t rest =>
    by_cases htrim : isBlank t = true
    · simp [htrim]
    · by_cases hd : dedupHit s t now = true
      · simp [htrim, hd]
      · have hb : (s.isProcessing || s.isSpeaking) = true := by
          rcases hbusy with h | h <;> simp [h]
        simp [htrim, hd, hb]

/-- Witness for C4: a fresh final transcript arriving while a turn is being
processed is dropped. -/
theorem busy_gate_drops_event_witness :
    handle_event okReasoner 10
      { lastTranscript := none, lastTranscriptTime := 0,
        isProcessing := true, isSpeaking := false, chatHistory := [] }
      { isFinal := true, alternatives := ["Hello"] } =
      ({ lastTranscript := none, lastTranscriptTime := 0,
         isProcessing := true, isSpeaking := false, chatHistory := [] },
       []) :=
  busy_gate_drops_event okReasoner 10 _ _ (Or.inl rfl)

/-- C5: every exit path of `speak_text` — early no-op returns, normal
completion, capture errors, synthesis errors, cancellation — leaves
`is_speaking` false (the `finally` of line 321 and the explicit resets of
lines 235 and 249). -/
theorem speak_text_always_releases (room : RoomView)
    (stream : List SynthItem) :
    (speak_text room stream).isSpeaking = false := by
  unfold speak_text
  by_cases h1 : room.connectionState = 0
  · simp [h1]
  · by_cases h2 : audioTrackPublished room
    · simp [h1, h2]
    · simp [h1, h2]

/-- C7: when the room is disconnected or no local track named
`"agent-voice"` is published, `speak_text` is a no-op — no synthesis, no
frames, no exception — and `is_speaking` ends false (lines 224-250). -/
theorem speak_text_noop_when_unavailable (room : RoomView)
    (stream : List SynthItem)
    (h : room.connectionState = 0 ∨ audioTrackPublished room = false) :
    speak_text room stream =
      { isSpeaking := false, framesSent := 0, synthCalled := false,
        raised := false } := by
  unfold speak_text
  rcases h with h | h
  · simp [h]
  · by_cases h1 : room.connectionState = 0
    · simp [h1]
    · simp [h1, h]

/-- Witness for C7: a disconnected room with a ready synthesis stream
produces the no-op result. -/
theorem speak_text_noop_when_unavailable_witness :
    speak_text { connectionState := 0, publications := [] }
      [SynthItem.chunk TTSChunk.withFrame 1 CaptureOutcome.ok] =
      { isSpeaking := false, framesSent := 0, synthCalled := false,
        raised := false } :=
  speak_text_noop_when_unavailable _ _ (Or.inl rfl)

/-- Helper: an event that passes every gate produces a Reasoner call whose
history argument is exactly the pre-turn chat history, whatever the
Reasoner then returns. -/
theorem handle_event_reasoner_effect (reasoner : Reasoner) (now : ℚ)
    (s : AgentState) (t : String) (rest : List String) (e : SpeechEvent)
    (halt : e.alternatives = t :: rest) (hfinal : e.isFinal = true)
    (hblank : isBlank t = false) (hd : dedupHit s t now = false)
    (hp : s.isProcessing = false) (hs : s.isSpeaking = false) :
    Effect.reasonerCall t s.chatHistory ∈ (handle_event reasoner now s e).2 := by
  unfold handle_event
  rw [halt]
  cases hr : reasoner t s.chatHistory <;>
    simp [hblank, hd, hp, hs, hfinal, hr]

/-- C3: when the Reasoner raises, the fixed apology is emitted to the
transcript sink as a non-user message, no assistant entry is appended to
the history, and `is_processing` is false afterwards; the `finally` of
lines 210-211 clears it on the success path as well, for any Reasoner
outcome. -/
theorem reasoner_failure_apology (reasoner : Reasoner) (now : ℚ)
    (s : AgentState) (t : String) (rest : List String) (e : SpeechEvent)
    (msg : String)
    (halt : e.alternatives = t :: rest) (hfinal : e.isFinal = true)
    (hblank : isBlank t = false) (hdedup : dedupHit s t now = false)
    (hp : s.isProcessing = false) (hs : s.isSpeaking = false)
    (hr : reasoner t s.chatHistory = Except.error msg) :
    handle_event reasoner now s e =
      ({ s with isProcessing := false, lastTranscript := some t,
                lastTranscriptTime := now,
                chatHistory := s.chatHistory ++ [⟨Role.user, t⟩] },
       [Effect.sendTranscript t true, Effect.sleep (1/2),
        Effect.reasonerCall t s.chatHistory,
        Effect.sendTranscript errorMsg false]) ∧
    (∀ reasoner2 : Reasoner,
      ((handle_event reasoner2 now s e).1).isProcessing = false) := by
  constructor
  · unfold handle_event
    rw [halt]
    simp [hblank, hdedup, hp, hs, hfinal, hr]
  · intro reasoner2
    unfold handle_event
    rw [halt]
    cases hr2 : reasoner2 t s.chatHistory <;>
      simp [hblank, hdedup, hp, hs, hfinal, hr2]

/-- Witness for C3 at a concrete failing Reasoner call. -/
theorem reasoner_failure_apology_witness :
    handle_event failReasoner 10 initialAgentState
      { isFinal := true, alternatives := ["Book a flight"] } =
      ({ lastTranscript := some "Book a flight", lastTranscriptTime := 10,
         isProcessing := false, isSpeaking := false,
         chatHistory := [⟨Role.user, "Book a flight"⟩] },
       [Effect.sendTranscript "Book a flight" true, Effect.sleep (1/2),
        Effect.reasonerCall "Book a flight" [],
        Effect.sendTranscript errorMsg false]) ∧
    ((handle_event okReasoner 10 initialAgentState
        { isFinal := true, alternatives := ["Book a flight"] }).1).isProcessing
      = false := by
  have h := reasoner_failure_apology failReasoner 10 initialAgentState
    "Book a flight" [] { isFinal := true, alternatives := ["Book a flight"] }
    "boom" rfl rfl (by decide) rfl rfl rfl (by simp [failReasoner])
  exact ⟨h.1, h.2 okReasoner⟩

/-- C9: session start emits the greeting to the transcript sink as a
non-user message and speaks it (lines 332-334) without touching the empty
`chat_history`, so the Reasoner call of the first accepted turn receives
the empty history. -/
theorem greeting_not_recorded_first_history_empty (reasoner : Reasoner)
    (now : ℚ) (t : String) (rest : List String) (e : SpeechEvent)
    (halt : e.alternatives = t :: rest) (hfinal : e.isFinal = true)
    (hblank : isBlank t = false) :
    sessionStart.2 =
      [Effect.sendTranscript greeting false, Effect.speakText greeting] ∧
    sessionStart.1.chatHistory = [] ∧
    Effect.reasonerCall t [] ∈ (handle_event reasoner now sessionStart.1 e).2 := by
  refine ⟨rfl, rfl, ?_⟩
  exact handle_event_reasoner_effect reasoner now sessionStart.1 t rest e
    halt hfinal hblank rfl rfl rfl

/-- Witness for C9 at the concrete first turn. -/
theorem greeting_not_recorded_first_history_empty_witness :
    sessionStart.2 =
      [Effect.sendTranscript greeting false, Effect.speakText greeting] ∧
    sessionStart.1.chatHistory = [] ∧
    Effect.reasonerCall "Hello" [] ∈
      (handle_event okReasoner 3 sessionStart.1
        { isFinal := true, alternatives := ["Hello"] }).2 :=
  greeting_not_recorded_first_history_empty okReasoner 3 "Hello" []
    { isFinal := true, alternatives := ["Hello"] } rfl rfl (by decide)

/-- C10: a turn whose Reasoner call raises still leaves the user utterance
appended to the history (the append of line 186 is never rolled back), and
the next accepted turn passes that utterance to the Reasoner as part of
its context. -/
theorem failed_turn_utterance_persists (reasoner : Reasoner)
    (now1 now2 : ℚ) (s s1 : AgentState) (t1 t2 : String)
    (r1 r2 : List String) (e1 e2 : SpeechEvent) (msg : String)
    (halt1 : e1.alternatives = t1 :: r1) (hfin1 : e1.isFinal = true)
    (hblank1 : isBlank t1 = false) (hd1 : dedupHit s t1 now1 = false)
    (hp : s.isProcessing = false) (hs : s.isSpeaking = false)
    (hr : reasoner t1 s.chatHistory = Except.error msg)
    (hs1 : s1 = (handle_event reasoner now1 s e1).1)
    (halt2 : e2.alternatives = t2 :: r2) (hfin2 : e2.isFinal = true)
    (hblank2 : isBlank t2 = false)
    (hd2 : ¬(t2 = t1 ∧ now2 - now1 < 2)) :
    s1.chatHistory = s.chatHistory ++ [⟨Role.user, t1⟩] ∧
    (⟨Role.user, t1⟩ : ChatMsg) ∈ s1.chatHistory ∧
    Effect.reasonerCall t2 (s.chatHistory ++ [⟨Role.user, t1⟩]) ∈
      (handle_event reasoner now2 s1 e2).2 := by
  have heq := (reasoner_failure_apology reasoner now1 s t1 r1 e1 msg halt1
    hfin1 hblank1 hd1 hp hs hr).1
  have hs1' : s1 =
      { s with isProcessing := false, lastTranscript := some t1,
               lastTranscriptTime := now1,
               chatHistory := s.chatHistory ++ [⟨Role.user, t1⟩] } := by
    rw [hs1, heq]
  have hch : s1.chatHistory = s.chatHistory ++ [⟨Role.user, t1⟩] := by
    rw [hs1']
  have hd2' : dedupHit s1 t2 now2 = false := by
    rw [hs1']
    unfold dedupHit
    by_cases ht : t2 = t1
    · have hnlt : ¬(now2 - now1 < 2) := fun hlt => hd2 ⟨ht, hlt⟩
      simp [ht, hnlt]
    · simp [ht]
  have hm := handle_event_reasoner_effect reasoner now2 s1 t2 r2 e2 halt2
    hfin2 hblank2 hd2' (by rw [hs1']) (by rw [hs1']; exact hs)
  rw [hch] at hm
  exact ⟨hch, by rw [hch]; simp, hm⟩

/-- Witness for C10: the Reasoner fails on the first utterance; the second
turn still carries it in the history handed to the Reasoner. -/
theorem failed_turn_utterance_persists_witness :
    ((handle_event failReasoner 0 initialAgentState
        { isFinal := true, alternatives := ["Book a flight"] }).1).chatHistory
      = [⟨Role.user, "Book a flight"⟩] ∧
    (⟨Role.user, "Book a flight"⟩ : ChatMsg) ∈
      ((handle_event failReasoner 0 initialAgentState
        { isFinal := true, alternatives := ["Book a flight"] }).1).chatHistory ∧
    Effect.reasonerCall "Hello" [⟨Role.user, "Book a flight"⟩] ∈
      (handle_event failReasoner 5
        (handle_event failReasoner 0 initialAgentState
          { isFinal := true, alternatives := ["Book a flight"] }).1
        { isFinal := true, alternatives := ["Hello"] }).2 :=
  failed_turn_utterance_persists failReasoner 0 5 initialAgentState _
    "Book a flight" "Hello" [] [] _ _ "boom" rfl rfl (by decide) rfl rfl rfl
    (by simp [failReasoner]) rfl rfl rfl (by decide) (by simp)

/-- Helper: one cleanup invocation always leaves the one-shot flag set. -/
theorem cleanup_done_after (s : CleanupState) :
    (cleanup_resources s).1.cleanupDone = true := by
  by_cases h : s.cleanupDone
  · simp [cleanup_resources, h]
  · simp [cleanup_resources, h]

/-- Helper: once the flag is set, any number of further invocations leaves
the state untouched and produces no effect. -/
theorem cleanupN_of_done (m : ℕ) (s : CleanupState)
    (h : s.cleanupDone = true) : cleanupN m s = (s, []) := by
  induction m with
  | zero => rfl
  | succ k ih =>
    have hc : cleanup_resources s = (s, []) := by
      unfold cleanup_resources
      simp [h]
    show cleanupN (k + 1) s = (s, [])
    unfold cleanupN
    rw [hc]
    simp [ih]

/-- C6: invoking `cleanup_resources` N times (N ≥ 1) has the same state
and the same observable effects as invoking it once — every invocation
after the first returns immediately on the `cleanup_done` flag
(lines 343-344) — and cleanup is a total function on any state, components
absent or failing included (every sub-step failure is swallowed into a
warning effect). -/
theorem cleanup_idempotent (s : CleanupState) (n : ℕ) (h : 1 ≤ n) :
    cleanupN n s = cleanupN 1 s := by
  cases n with
  | zero => exact absurd h (by omega)
  | succ m =>
    have hd := cleanup_done_after s
    show cleanupN (m + 1) s = cleanupN 1 s
    unfold cleanupN
    simp only [cleanupN_of_done m _ hd, cleanupN_of_done 0 _ hd]

/-- Witness for C6: two invocations on a partially initialized session
(only the announcement queue exists) equal one invocation. -/
theorem cleanup_idempotent_witness :
    (1 ≤ 2) ∧
    cleanupN 2 { cleanupDone := false, sttEngine := none, ttsEngine := none,
                 agentAudioTrack := none, agentAudioSource := none,
                 announcementQueue := some ["pending"] } =
    cleanupN 1 { cleanupDone := false, sttEngine := none, ttsEngine := none,
                 agentAudioTrack := none, agentAudioSource := none,
                 announcementQueue := some ["pending"] } :=
  ⟨by norm_num, cleanup_idempotent _ 2 (by norm_num)⟩

/-- Helper: the poll never performs more sleeps than the cap. -/
theorem wait_poll_le (avail : ℕ → Bool) (m : ℕ) :
    ∀ n a, m - a ≤ n → a ≤ m → (wait_poll avail m a).1 ≤ m := by
  intro n
  induction n with
  | zero =>
    intro a h1 h2
    have ha : a = m := by omega
    rw [wait_poll]
    simp [ha]
  | succ k ih =>
    intro a h1 h2
    rw [wait_poll]
    by_cases hlt : a < m
    · by_cases hav : avail (a + 1) = true
      · simp only [hlt, if_true, hav]
        omega
      · simp only [hlt, if_true, hav, Bool.false_eq_true, if_false]
        exact ih (a + 1) (by omega) (by omega)
    · simp only [hlt, if_false]
      omega

/-- Helper: when no poll within the cap finds a track, the loop runs the
cap out and reports failure. -/
theorem wait_poll_not_found (avail : ℕ → Bool) (m : ℕ) :
    ∀ n a, m - a ≤ n → a ≤ m →
      (∀ k, a < k → k ≤ m → avail k = false) →
      wait_poll avail m a = (m, false) := by
  intro n
  induction n with
  | zero =>
    intro a h1 h2 hav
    have ha : a = m := by omega
    rw [wait_poll]
    simp [ha]
  | succ k ih =>
    intro a h1 h2 hav
    rw [wait_poll]
    by_cases hlt : a < m
    · have h0 : avail (a + 1) = false := hav (a + 1) (by omega) (by omega)
      simp only [hlt, if_true, h0, Bool.false_eq_true, if_false]
      exact ih (a + 1) (by omega) (by omega)
        (fun j hj1 hj2 => hav j (by omega) hj2)
    · have ha : a = m := by omega
      simp [hlt, ha]

/-- Helper: the loop returns at the first poll that finds a track. -/
theorem wait_poll_found (avail : ℕ → Bool) (m : ℕ) :
    ∀ n a k, k - a ≤ n → a < k → k ≤ m → avail k = true →
      (∀ j, a < j → j < k → avail j = false) →
      wait_poll avail m a = (k, true) := by
  intro n
  induction n with
  | zero =>
    intro a k h1 h2 _ _ _
    omega
  | succ kk ih =>
    intro a k h1 h2 h3 hk hmin
    rw [wait_poll]
    have hlt : a < m := by omega
    by_cases he : a + 1 = k
    · subst he
      simp [hlt, hk]
    · have h0 : avail (a + 1) = false := hmin (a + 1) (by omega) (by omega)
      simp only [hlt, if_true, h0, Bool.false_eq_true, if_false]
      exact ih (a + 1) k (by omega) (by omega) h3 hk
        (fun j hj1 hj2 => hmin j (by omega) hj2)

/-- C8: the audio-track discovery poll performs at most 100 sleeps of
100 ms (a 10 s cap), returns `ok` at the first poll that finds an audio
track with a payload, and raises the no-audio-track error when the cap is
exhausted without finding one. -/
theorem audio_poll_bounded (avail : ℕ → Bool) :
    (wait_poll avail 100 0).1 ≤ 100 ∧
    ((∀ k, 1 ≤ k → k ≤ 100 → avail k = false) →
      wait_for_audio_track avail =
        Except.error "No user audio track found") ∧
    (∀ k, 1 ≤ k → k ≤ 100 → avail k = true →
      (∀ j, 1 ≤ j → j < k → avail j = false) →
      wait_for_audio_track avail = Except.ok k) := by
  refine ⟨wait_poll_le avail 100 100 0 (by omega) (by omega), ?_, ?_⟩
  · intro h
    unfold wait_for_audio_track
    rw [wait_poll_not_found avail 100 100 0 (by omega) (by omega)
      (fun k hk1 hk2 => h k (by omega) hk2)]
    rfl
  · intro k hk1 hk2 hk hmin
    unfold wait_for_audio_track
    rw [wait_poll_found avail 100 k 0 k (by omega) (by omega) hk2 hk
      (fun j hj1 hj2 => hmin j (by omega) hj2)]
    rfl

/-- Witness for C8: a track appearing at the third poll is found after
exactly three sleeps. -/
theorem audio_poll_bounded_witness :
    wait_for_audio_track (fun k => k == 3) = Except.ok 3 :=
  (audio_poll_bounded (fun k => k == 3)).2.2 3 (by norm_num) (by norm_num)
    (by decide)
    (by
      intro j h1 h2
      simp only [beq_eq_false_iff_ne, ne_eq]
      omega)

/-- C1 counterexample: a reachable interleaving in which `is_processing`
and `is_speaking` are simultaneously true and the turn reply and an
announcement are both writing to the outbound sink — the turn is inside
`speak_text` for its reply while the announcement consumer is inside its
own `speak_text`, which checks no gate before starting. -/
theorem speaking_gate_overlap_counterexample :
    Reachable overlapConfig ∧
    overlapConfig.isProcessing = true ∧ overlapConfig.isSpeaking = true ∧
    overlapConfig.handleWriting = true ∧ overlapConfig.annWriting = true := by
  refine ⟨?_, rfl, rfl, rfl, rfl⟩
  have h0 : Reachable initConfig := Reachable.init
  have h1 := Reachable.step h0 (Step.startTurn initConfig rfl rfl rfl)
  have h2 := Reachable.step h1 (Step.enqueueAnn _ rfl)
  have h3 := Reachable.step h2 (Step.annDequeue _ rfl (by norm_num))
  have h4 := Reachable.step h3 (Step.annEnterSpeak _ rfl)
  have h5 := Reachable.step h4 (Step.reasonerDone _ rfl)
  have h6 := Reachable.step h5 (Step.handleEnterSpeak _ rfl)
  exact h6

/-- C1 amended: the gate of line 174 admits a new turn only from a
configuration in which `is_processing` and `is_speaking` are both false —
at most one turn is in flight at a time — while during a turn the two
flags overlap and a concurrent announcement stream is possible, as the
counterexample exhibits. -/
theorem turn_start_requires_flags_clear (c c' : Config) (hstep : Step c c')
    (h0 : c.hloc = HLoc.h0) (h1 : c'.hloc = HLoc.h1) :
    c.isProcessing = false ∧ c.isSpeaking = false := by
  cases hstep <;> simp_all

/-- Witness for the amended C1 at the initial configuration's first turn
start. -/
theorem turn_start_requires_flags_clear_witness :
    initConfig.isProcessing = false ∧ initConfig.isSpeaking = false :=
  turn_start_requires_flags_clear initConfig
    { initConfig with hloc := HLoc.h1, isProcessing := true }
    (Step.startTurn initConfig rfl rfl rfl) rfl rfl

end VoiceAgent
